import Mathlib

/-!
Shallow embedding of the vibe-english-platform frontend (TypeScript sources
under src/). Each definition mirrors one function of the source, translated
from the code:

* src/src/lib/api.ts — cookie-based token storage, the wordCache map with its
  30-minute freshness window, the generic HTTP request helper and
  getEnhancedWordInfo.
* src/unnamed/part_000 (WordInput component) — guest API count and
  handleSubmit (enhanced lookup with quota fallback to getWordMeanings).
* src/src/components/ReviewSession.tsx — loadDueCards, handleRating and the
  render dispatch.
* src/src/types/index.ts (App component) — handleMeaningSelect,
  handlePopState and pushState.

Effects (fetch results, cookie jar, localStorage-backed counters, toast and
callback invocations) are made explicit: each embedded handler takes the
outcome of its awaited network calls as an argument and returns a record of
its state updates and of the side effects it performed.
-/

namespace VibeEnglish

/-- A thrown JavaScript `Error`, identified by its message string
(the source compares errors by `error.message`). -/
structure JsError where
  message : String
  deriving DecidableEq, Repr

/-! ### Data model (src/src/types/index.ts) -/

/-- `WordMeaning` from types/index.ts. -/
structure WordMeaning where
  partOfSpeech : String
  definition : String
  «example» : Option String
  deriving DecidableEq, Repr

/-- Difficulty tier of `WordAnalysis`. -/
inductive Difficulty where
  | beginner
  | intermediate
  | advanced
  deriving DecidableEq, Repr

/-- Formality tag of `WordAnalysis.usage`. -/
inductive Formality where
  | formal
  | informal
  | neutral
  deriving DecidableEq, Repr

/-- Frequency tag of `WordAnalysis.usage`. -/
inductive Frequency where
  | rare
  | common
  | veryCommon
  deriving DecidableEq, Repr

/-- `WordAnalysis.pronunciation` from types/index.ts. -/
structure Pronunciation where
  phonetic : String
  syllables : List String
  stress : List Int
  deriving DecidableEq, Repr

/-- `WordAnalysis.relationships` from types/index.ts. -/
structure Relationships where
  synonyms : List String
  antonyms : List String
  related : List String
  deriving DecidableEq, Repr

/-- `WordAnalysis.usage` from types/index.ts. -/
structure Usage where
  contexts : List String
  formality : Formality
  frequency : Frequency
  deriving DecidableEq, Repr

/-- `WordAnalysis.examples` from types/index.ts. -/
structure AnalysisExamples where
  basic : String
  intermediate : String
  advanced : String
  deriving DecidableEq, Repr

/-- `WordAnalysis` from types/index.ts. -/
structure WordAnalysis where
  word : String
  difficulty : Difficulty
  difficultyScore : Int
  pronunciation : Pronunciation
  relationships : Relationships
  usage : Usage
  examples : AnalysisExamples
  deriving DecidableEq, Repr

/-- `EnhancedWordResponse` from types/index.ts: word, phonetic, meanings and
an optional AI analysis block. -/
structure EnhancedWordResponse where
  word : String
  phonetic : String
  meanings : List WordMeaning
  analysis : Option WordAnalysis
  deriving DecidableEq, Repr

/-- The value produced by the TypeScript cast `{} as T` on an empty response
body, at type `EnhancedWordResponse`. -/
def EnhancedWordResponse.empty : EnhancedWordResponse :=
  { word := "", phonetic := "", meanings := [], analysis := none }

instance : Inhabited EnhancedWordResponse := ⟨EnhancedWordResponse.empty⟩

/-- Payload of `getWordMeanings` (`{ word: string; meanings: WordMeaning[] }`). -/
structure BasicMeaningsResponse where
  word : String
  meanings : List WordMeaning
  deriving DecidableEq, Repr

/-- `LearningCard` from types/index.ts. -/
structure LearningCard where
  word : String
  meaning : String
  «example» : String
  imageUrl : String
  deriving DecidableEq, Repr

/-- `CollectionCard.status` from types/index.ts. -/
inductive CardStatus where
  | new
  | learning
  | review
  | relearning
  deriving DecidableEq, Repr

/-- `LearningStage` from types/index.ts. -/
inductive LearningStage where
  | recognition
  | recall
  | production
  deriving DecidableEq, Repr

/-- `CollectionCard` from types/index.ts: a learning card plus
spaced-repetition bookkeeping. All fields are server-authoritative. -/
structure CollectionCard where
  word : String
  meaning : String
  «example» : String
  imageUrl : String
  savedAt : String
  collectionId : String
  id : String
  reviewCount : Nat
  easeFactor : Float
  interval : Float
  nextReviewDate : String
  lastReviewedAt : Option String
  lapseCount : Nat
  status : CardStatus
  learningStage : LearningStage
  confidenceLevel : Nat
  pronunciationAttempts : Nat
  lastQuestionType : Option String
  correctStreak : Nat
  deriving Repr

instance : Inhabited CollectionCard :=
  ⟨{ word := "", meaning := "", «example» := "", imageUrl := "", savedAt := ""
     collectionId := "", id := "", reviewCount := 0, easeFactor := 2.5
     interval := 0, nextReviewDate := "", lastReviewedAt := none
     lapseCount := 0, status := .new, learningStage := .recognition
     confidenceLevel := 0, pronunciationAttempts := 0
     lastQuestionType := none, correctStreak := 0 }⟩

/-- `ReviewRating` from types/index.ts: `1 | 2 | 3 | 4`. -/
abbrev ReviewRating : Type := { n : Nat // 1 ≤ n ∧ n ≤ 4 }

/-- Toast variants of src/src/lib/toast.tsx. -/
inductive ToastVariant where
  | default
  | success
  | error
  deriving DecidableEq, Repr

/-! ### Cookie storage (src/src/lib/api.ts lines 99-132)

The browser cookie jar is modelled as an association list from cookie name
to value; `document.cookie` assignment with a positive max-age inserts or
replaces the entry, and assignment with an expiry in the past removes it.
`getCookie`'s string parse of `document.cookie` is modelled as lookup of the
first entry with the given name. -/

/-- The browser's cookie jar: name/value pairs. -/
abbrev CookieJar : Type := List (String × String)

/-- `COOKIE_NAME` from api.ts. -/
def COOKIE_NAME : String := "auth_token"

/-- `COOKIE_MAX_AGE` from api.ts: 7 days in seconds. -/
def COOKIE_MAX_AGE : Nat := 60 * 60 * 24 * 7

/-- `setCookie`: store a cookie, replacing any entry of the same name. -/
def setCookie (jar : CookieJar) (name value : String) : CookieJar :=
  (name, value) :: List.filter (fun p => p.1 ≠ name) jar

/-- `getCookie`: the value of the first cookie with this name, if any. -/
def getCookie : CookieJar → String → Option String
  | [], _ => none
  | (k, v) :: rest, name => if k = name then some v else getCookie rest name

/-- `deleteCookie`: expire (remove) every cookie with this name. -/
def deleteCookie (jar : CookieJar) (name : String) : CookieJar :=
  List.filter (fun p => p.1 ≠ name) jar

/-- `ApiService.setToken`. -/
def setToken (jar : CookieJar) (token : String) : CookieJar :=
  setCookie jar COOKIE_NAME token

/-- `ApiService.getToken`. -/
def getToken (jar : CookieJar) : Option String :=
  getCookie jar COOKIE_NAME

/-- `ApiService.removeToken`. -/
def removeToken (jar : CookieJar) : CookieJar :=
  deleteCookie jar COOKIE_NAME

/-- `ApiService.isAuthenticated`: `this.getToken() !== null`. -/
def isAuthenticated (jar : CookieJar) : Bool :=
  (getToken jar).isSome

/-! ### The HTTP request helper (src/src/lib/api.ts lines 135-187) -/

/-- Outcome of `fetch(url, config)` as observed by `request<T>`:
either the fetch promise rejects (in the browser with a `TypeError`, which is
an `Error` instance), or a response arrives carrying a status, a status text,
and a body. The body is recorded through the two parses the code may apply
to it: `errorField` is the result of the error-path `response.json()`
(`none` = the parse throws; `some f` = it yields an object whose `error`
field is `f`, where `none`/`some ""` are falsy), and `jsonBody` is the
success-path body (`none` = content-type is not JSON, so the code returns
`{} as T`). -/
inductive FetchResult (α : Type) where
  | networkFailure (err : JsError)
  | response (status : Nat) (statusText : String)
      (errorField : Option (Option String)) (jsonBody : Option α)

/-- `response.ok`: status in the range 200-299. -/
def respOk (status : Nat) : Bool :=
  200 ≤ status && status < 300

/-- JavaScript `a || b` for the string field `errorData.error`: the default
is used when the field is absent or the empty string (falsy). -/
def jsOr (s : Option String) (dflt : String) : String :=
  match s with
  | some v => if v = "" then dflt else v
  | none => dflt

/-- The body of the inner `try` block of `request` on a non-401/429 error
status: `await response.json()` (which may itself throw), then
`throw new Error(errorData.error || \x7bHTTP status\x7d)`. The block always
throws. -/
def errorBodyThrow (status : Nat) (errorField : Option (Option String)) :
    Except JsError α :=
  match errorField with
  | none => .error ⟨"Unexpected end of JSON input"⟩
  | some f => .error ⟨jsOr f s!"HTTP {status}"⟩

/-- JavaScript `try { x } catch (e) { handler e }` over an `Except`-modelled
computation. -/
def tryCatch (x : Except JsError α) (handler : JsError → Except JsError α) :
    Except JsError α :=
  match x with
  | .ok a => .ok a
  | .error e => handler e

/-- `ApiService.request<T>`: given the cookie jar (for the bearer token and
the 401 side effect), the fetch outcome, and the value that the cast
`{} as T` denotes for non-JSON bodies, produce the settled promise and the
updated cookie jar. On 401 the token is removed before the rejection; on 429
the distinguished quota message is thrown; on any other error status the
inner parse-and-throw is itself caught and replaced by the
`HTTP status: statusText` error. The outer catch rethrows `Error` instances
unchanged and turns anything else into `Network error`; every value thrown
here is modelled as a `JsError`, so it rethrows unchanged. -/
def request (jar : CookieJar) (fetch : FetchResult α) (emptyVal : α) :
    Except JsError α × CookieJar :=
  match fetch with
  | .networkFailure err => (.error err, jar)
  | .response status statusText errorField jsonBody =>
      if respOk status then
        (.ok (jsonBody.getD emptyVal), jar)
      else if status = 401 then
        (.error ⟨"Authentication required"⟩, removeToken jar)
      else if status = 429 then
        (.error ⟨"AI_SERVICE_QUOTA_EXCEEDED"⟩, jar)
      else
        (tryCatch (errorBodyThrow status errorField)
          (fun _ => .error ⟨s!"HTTP {status}: {statusText}"⟩), jar)

/-! ### The word cache and getEnhancedWordInfo (src/src/lib/api.ts
lines 16-18 and 196-216) -/

/-- A `wordCache` entry: `{ data, timestamp }` with the timestamp in
milliseconds (`Date.now()`). -/
structure CacheEntry where
  data : EnhancedWordResponse
  timestamp : Int
  deriving DecidableEq, Repr

/-- The module-level `wordCache` map, keyed by `enhanced_` plus the
lowercased word. -/
abbrev WordCache : Type := List (String × CacheEntry)

/-- `CACHE_DURATION` from api.ts: 30 minutes in milliseconds. -/
def CACHE_DURATION : Int := 1000 * 60 * 30

/-- `wordCache.get`: the entry under this key, if any. -/
def cacheGet : WordCache → String → Option CacheEntry
  | [], _ => none
  | (k, v) :: rest, key => if k = key then some v else cacheGet rest key

/-- `wordCache.set`: store an entry, replacing any entry under the same key. -/
def cacheSet (cache : WordCache) (key : String) (entry : CacheEntry) :
    WordCache :=
  (key, entry) :: List.filter (fun p => p.1 ≠ key) cache

/-- Result of one `getEnhancedWordInfo` call: the settled promise, the
updated cache and cookie jar, and whether `this.request` (a network
request) was issued. -/
structure EnhancedCallResult where
  result : Except JsError EnhancedWordResponse
  cache : WordCache
  jar : CookieJar
  networkCalled : Bool

/-- The part of `getEnhancedWordInfo` after the fresh-cache check: issue the
request; on success store `{ data, timestamp: Date.now() }` under the cache
key and resolve with the data; on failure resolve with the (possibly stale)
cached data when the error is the quota signal and a cache entry exists,
otherwise rethrow. -/
def getEnhancedAfterFetch (cache : WordCache) (jar : CookieJar)
    (cacheKey : String) (cached : Option CacheEntry) (now : Int)
    (fetch : FetchResult EnhancedWordResponse) : EnhancedCallResult :=
  match request jar fetch EnhancedWordResponse.empty with
  | (.ok data, jar') =>
      { result := .ok data
        cache := cacheSet cache cacheKey { data := data, timestamp := now }
        jar := jar', networkCalled := true }
  | (.error e, jar') =>
      match cached with
      | some c =>
          if e.message = "AI_SERVICE_QUOTA_EXCEEDED" then
            { result := .ok c.data, cache := cache, jar := jar'
              networkCalled := true }
          else
            { result := .error e, cache := cache, jar := jar'
              networkCalled := true }
      | none =>
          { result := .error e, cache := cache, jar := jar'
            networkCalled := true }

/-- `ApiService.getEnhancedWordInfo`: look up `enhanced_` plus the lowercased
word in `wordCache`; if an entry exists and `Date.now() - timestamp` is below
`CACHE_DURATION`, resolve with the cached data without a network request;
otherwise fall through to the request with the stale entry kept at hand for
the quota fallback. -/
def getEnhancedWordInfo (cache : WordCache) (jar : CookieJar) (word : String)
    (now : Int) (fetch : FetchResult EnhancedWordResponse) :
    EnhancedCallResult :=
  let cacheKey := "enhanced_" ++ word.toLower
  match cacheGet cache cacheKey with
  | some c =>
      if now - c.timestamp < CACHE_DURATION then
        { result := .ok c.data, cache := cache, jar := jar
          networkCalled := false }
      else
        getEnhancedAfterFetch cache jar cacheKey (some c) now fetch
  | none => getEnhancedAfterFetch cache jar cacheKey none now fetch

/-! ### The word-input screen (src/unnamed/part_000, WordInput component) -/

/-- JavaScript `String.prototype.trim`: strip whitespace from both ends of
the string. -/
def jsTrim (s : String) : String :=
  ⟨(((s.data.dropWhile Char.isWhitespace).reverse.dropWhile
      Char.isWhitespace).reverse)⟩

/-- `GUEST_API_LIMIT` from the WordInput component. -/
def GUEST_API_LIMIT : Nat := 3

/-- Observable outcome of one `WordInput.handleSubmit` run: whether
`onLoginRequired` fired, whether `apiService.getEnhancedWordInfo` and the
fallback `apiService.getWordMeanings` were invoked, the final `wordData` and
`error` state, and the guest API counter afterwards (state and localStorage
agree, both written by `incrementGuestApiCount`). -/
structure SubmitOutcome where
  loginRequired : Bool
  enhancedCalled : Bool
  fallbackCalled : Bool
  wordData : Option EnhancedWordResponse
  errorText : String
  guestApiCount : Nat
  deriving DecidableEq, Repr

/-- `WordInput.handleSubmit`, with the settled results of the two awaited
API calls passed as arguments. Empty (trimmed) input short-circuits with a
prompt; an unauthenticated user at or over `GUEST_API_LIMIT` triggers
`onLoginRequired` and returns before any API call; otherwise the enhanced
lookup runs, the distinguished quota message triggers the plain-meanings
fallback (building `{ word, meanings, phonetic: "" }` on its success), any
other failure — or a failed fallback — sets the not-found error, and the
guest counter is incremented only in the two success branches. -/
def handleSubmit (word : String) (isAuth : Bool) (guestApiCount : Nat)
    (enhancedResult : Except JsError EnhancedWordResponse)
    (basicResult : Except JsError BasicMeaningsResponse) : SubmitOutcome :=
  if jsTrim word = "" then
    { loginRequired := false, enhancedCalled := false, fallbackCalled := false
      wordData := none, errorText := "Please enter a word"
      guestApiCount := guestApiCount }
  else if !isAuth && GUEST_API_LIMIT ≤ guestApiCount then
    { loginRequired := true, enhancedCalled := false, fallbackCalled := false
      wordData := none, errorText := "", guestApiCount := guestApiCount }
  else
    match enhancedResult with
    | .ok data =>
        { loginRequired := false, enhancedCalled := true
          fallbackCalled := false, wordData := some data, errorText := ""
          guestApiCount := if !isAuth then guestApiCount + 1
            else guestApiCount }
    | .error err =>
        if err.message = "AI_SERVICE_QUOTA_EXCEEDED" then
          match basicResult with
          | .ok basicData =>
              let fallbackData : EnhancedWordResponse :=
                { word := basicData.word, phonetic := ""
                  meanings := basicData.meanings, analysis := none }
              { loginRequired := false, enhancedCalled := true
                fallbackCalled := true
                wordData := some fallbackData
                errorText := ""
                guestApiCount := if !isAuth then guestApiCount + 1
                  else guestApiCount }
          | .error _ =>
              { loginRequired := false, enhancedCalled := true
                fallbackCalled := true, wordData := none
                errorText := "Word not found. Please try another word."
                guestApiCount := guestApiCount }
        else
          { loginRequired := false, enhancedCalled := true
            fallbackCalled := false, wordData := none
            errorText := "Word not found. Please try another word."
            guestApiCount := guestApiCount }

/-! ### The review session (src/src/components/ReviewSession.tsx) -/

/-- The ReviewSession component state touched by `handleRating`. -/
structure ReviewState where
  cards : List CollectionCard
  currentIndex : Nat
  showAnswer : Bool
  reviewing : Bool

/-- Observable outcome of one `ReviewSession.handleRating` run: the updated
component state, how many times `onComplete` fired, whether the
failure toast was shown, and the `(collectionId, cardId, rating)` triple
submitted to `recordCardReview`, if any. -/
structure RatingOutcome where
  state : ReviewState
  onCompleteCalls : Nat
  errorToast : Bool
  recorded : Option (String × String × ReviewRating)

/-- `ReviewSession.handleRating`, with the settled result of the awaited
`recordCardReview` call passed as an argument. A run already in flight or an
out-of-range index returns unchanged; on success the session advances to the
next card with the answer hidden, or — on the last card — fires `onComplete`;
on failure it shows the error toast. The `reviewing` flag is set for the
duration and reset in the `finally` block. -/
def handleRating (st : ReviewState) (rating : ReviewRating)
    (recordResult : Except JsError Unit) : RatingOutcome :=
  if st.reviewing || st.cards.length ≤ st.currentIndex then
    { state := st, onCompleteCalls := 0, errorToast := false
      recorded := none }
  else
    let currentCard := st.cards.getD st.currentIndex default
    match recordResult with
    | .ok _ =>
        if st.currentIndex < st.cards.length - 1 then
          let st' := { st with currentIndex := st.currentIndex + 1
                               showAnswer := false, reviewing := false }
          { state := st'
            onCompleteCalls := 0, errorToast := false
            recorded := some (currentCard.collectionId, currentCard.id,
              rating) }
        else
          { state := { st with reviewing := false }
            onCompleteCalls := 1, errorToast := false
            recorded := some (currentCard.collectionId, currentCard.id,
              rating) }
    | .error _ =>
        { state := { st with reviewing := false }
          onCompleteCalls := 0, errorToast := true
          recorded := some (currentCard.collectionId, currentCard.id,
            rating) }

/-- Observable outcome of one `ReviewSession.loadDueCards` run: the `cards`
and `loading` state afterwards, how many times `onComplete` and `onClose`
fired, and the toast shown, if any. -/
structure LoadOutcome where
  cards : List CollectionCard
  loading : Bool
  onCompleteCalls : Nat
  onCloseCalls : Nat
  toast : Option (String × ToastVariant)

/-- `ReviewSession.loadDueCards`, with the settled result of the awaited
`getCardsForReview` call passed as an argument. An empty due list fires the
no-cards toast and `onComplete` immediately; a failure fires the error toast
and `onClose`; `loading` is cleared in the `finally` block. -/
def loadDueCards (fetchResult : Except JsError (List CollectionCard)) :
    LoadOutcome :=
  match fetchResult with
  | .ok cards =>
      if cards.length = 0 then
        { cards := cards, loading := false, onCompleteCalls := 1
          onCloseCalls := 0
          toast := some ("No cards due for review!", .success) }
      else
        { cards := cards, loading := false, onCompleteCalls := 0
          onCloseCalls := 0, toast := none }
  | .error _ =>
      { cards := [], loading := false, onCompleteCalls := 0
        onCloseCalls := 1
        toast := some ("Failed to load review cards", .error) }

/-- Top-level shape of the ReviewSession render: the loading overlay while
`loading` is set, nothing (`null`) once loading ends with no cards, and
otherwise the flashcard UI for the current card. -/
inductive ReviewRender where
  | loadingOverlay
  | nothing
  | flashcard (card : CollectionCard) (currentIndex : Nat) (total : Nat)
      (showAnswer : Bool)

/-- The ReviewSession render dispatch (component body after the handlers):
`if (loading) return overlay; if (cards.length === 0) return null;` and
otherwise the flashcard for `cards[currentIndex]`. -/
def renderReviewSession (loading : Bool) (cards : List CollectionCard)
    (currentIndex : Nat) (showAnswer : Bool) : ReviewRender :=
  if loading then
    .loadingOverlay
  else if cards.length = 0 then
    .nothing
  else
    .flashcard (cards.getD currentIndex default) currentIndex cards.length
      showAnswer

/-! ### The root controller (App component, src/src/types/index.ts
second document) -/

/-- The three top-level views of App: `"learn" | "collections" | "learning"`. -/
inductive AppView where
  | learn
  | collections
  | learning
  deriving DecidableEq, Repr

/-- The path pushed by `App.pushState` for each view:
`nextView === "collections" ? "/collections" : nextView === "learning" ?
"/learning" : "/"`. -/
def pushStatePath (nextView : AppView) : String :=
  if nextView = .collections then "/collections"
  else if nextView = .learning then "/learning"
  else "/"

/-- The view restored by App's `handlePopState` from
`window.location.pathname`. -/
def handlePopState (pathname : String) : AppView :=
  if pathname = "/collections" then .collections
  else if pathname = "/learning" then .learning
  else .learn

/-- The view chosen by `App.getInitialView` from the initial pathname (the
same mapping as `handlePopState`). -/
def getInitialView (pathname : String) : AppView :=
  if pathname = "/collections" then .collections
  else if pathname = "/learning" then .learning
  else .learn

/-- Observable outcome of one `App.handleMeaningSelect` run: the `step` and
`learningCard` state afterwards, the loading flag during and after the
awaited call, whether the failure toast was shown, and whether the
fire-and-forget `handleWordLearned` sync ran. -/
structure MeaningSelectOutcome where
  step : Nat
  learningCard : Option LearningCard
  loadingDuring : Bool
  loadingAfter : Bool
  errorToast : Bool
  wordLearnedCalled : Bool
  deriving DecidableEq, Repr

/-- `App.handleMeaningSelect`, with the settled result of the awaited
`generateLearningCard` call passed as an argument. The loading flag is set
before the call and cleared in the `finally` block; on success the card is
stored, the step becomes 3 and the background word-learned sync fires; on
failure the error toast is shown and `step`/`learningCard` are left as they
were. -/
def handleMeaningSelect (step0 : Nat) (card0 : Option LearningCard)
    (genResult : Except JsError LearningCard) : MeaningSelectOutcome :=
  match genResult with
  | .ok data =>
      { step := 3, learningCard := some data, loadingDuring := true
        loadingAfter := false, errorToast := false
        wordLearnedCalled := true }
  | .error _ =>
      { step := step0, learningCard := card0, loadingDuring := true
        loadingAfter := false, errorToast := true
        wordLearnedCalled := false }

/-! ### Helper lemmas -/

/-- After every cookie of a name is expired, looking that name up finds
nothing. -/
theorem getCookie_deleteCookie (jar : CookieJar) (name : String) :
    getCookie (deleteCookie jar name) name = none := by
  induction jar with
  | nil => rfl
  | cons p rest ih =>
      by_cases h : p.1 = name
      · simpa [deleteCookie, List.filter_cons, h] using ih
      · simpa [deleteCookie, List.filter_cons, h, getCookie] using ih

/-- A freshly stored cache entry is found under its key. -/
theorem cacheGet_cacheSet_self (cache : WordCache) (key : String)
    (entry : CacheEntry) : cacheGet (cacheSet cache key entry) key =
      some entry := by
  simp [cacheSet, cacheGet]

/-- Once control falls through to the fetch, a network request is issued. -/
theorem getEnhancedAfterFetch_networkCalled (cache : WordCache)
    (jar : CookieJar) (cacheKey : String) (cached : Option CacheEntry)
    (now : Int) (fetch : FetchResult EnhancedWordResponse) :
    (getEnhancedAfterFetch cache jar cacheKey cached now fetch).networkCalled
      = true := by
  unfold getEnhancedAfterFetch
  rcases h : request jar fetch EnhancedWordResponse.empty with ⟨res, jar'⟩
  cases res with
  | ok data => simp
  | error e =>
      cases cached with
      | some c => by_cases hm : e.message = "AI_SERVICE_QUOTA_EXCEEDED" <;>
          simp [hm]
      | none => simp

/-- A successful fetch stores the payload under the cache key with the
current timestamp and resolves with it. -/
theorem getEnhancedAfterFetch_ok (cache : WordCache) (jar : CookieJar)
    (cacheKey : String) (cached : Option CacheEntry) (now : Int)
    (statusText : String) (errorField : Option (Option String))
    (data : EnhancedWordResponse) :
    getEnhancedAfterFetch cache jar cacheKey cached now
        (.response 200 statusText errorField (some data)) =
      { result := .ok data
        cache := cacheSet cache cacheKey { data := data, timestamp := now }
        jar := jar, networkCalled := true } := by
  unfold getEnhancedAfterFetch
  simp [request, respOk]

/-! ### Claim theorems -/

/-- C2: for every API request whose HTTP response has status 401, `request`
removes the stored auth-token cookie and rejects with the
authentication-required error, and `isAuthenticated` on the resulting cookie
jar returns false. -/
theorem c2_auth_401_clears_token (α : Type) (jar : CookieJar)
    (statusText : String) (errorField : Option (Option String))
    (jsonBody : Option α) (emptyVal : α) :
    (request jar (.response 401 statusText errorField jsonBody) emptyVal).1
        = .error ⟨"Authentication required"⟩
  ∧ (request jar (.response 401 statusText errorField jsonBody) emptyVal).2
        = removeToken jar
  ∧ isAuthenticated
      (request jar (.response 401 statusText errorField jsonBody) emptyVal).2
        = false := by
  refine ⟨rfl, rfl, ?_⟩
  show isAuthenticated (removeToken jar) = false
  simp [isAuthenticated, getToken, removeToken, getCookie_deleteCookie]

/-- C5: for every HTTP response with a non-2xx status other than 401 and
429, `request` rejects with exactly the message
`HTTP {status}: {statusText}`; the error field of a JSON error body never
reaches the rejection, because the Error thrown after parsing the body is
itself caught by the enclosing catch and replaced. -/
theorem c5_http_error_message_replaced (α : Type) (jar : CookieJar)
    (status : Nat) (statusText : String) (errorField : Option (Option String))
    (jsonBody : Option α) (emptyVal : α)
    (hok : respOk status = false) (h401 : status ≠ 401)
    (h429 : status ≠ 429) :
    (request jar (.response status statusText errorField jsonBody) emptyVal).1
        = .error ⟨s!"HTTP {status}: {statusText}"⟩ := by
  cases errorField <;>
    simp [request, hok, h401, h429, tryCatch, errorBodyThrow]

/-- Witness for C5 at status 500 with an error body whose error field is
`boom`: the rejection message is the HTTP one, not `boom`. -/
theorem c5_http_error_message_replaced_witness :
    respOk 500 = false ∧ (500 : Nat) ≠ 401 ∧ (500 : Nat) ≠ 429
  ∧ (request ([] : CookieJar)
      (.response 500 "Internal Server Error" (some (some "boom"))
        (none : Option Unit)) ()).1
      = .error ⟨s!"HTTP {(500 : Nat)}: Internal Server Error"⟩ :=
  ⟨by decide, by decide, by decide,
    c5_http_error_message_replaced Unit [] 500 "Internal Server Error"
      (some (some "boom")) none () (by decide) (by decide) (by decide)⟩

/-- C6: a meaning selection at step 2 sets the loading flag and calls
`generateLearningCard`; on success it stores the card and moves to step 3,
on failure it shows the error toast and stays at step 2 with the card state
unchanged. -/
theorem c6_meaning_select_transitions (card0 : Option LearningCard)
    (data : LearningCard) (e : JsError) :
    (handleMeaningSelect 2 card0 (.ok data)).loadingDuring = true
  ∧ (handleMeaningSelect 2 card0 (.ok data)).step = 3
  ∧ (handleMeaningSelect 2 card0 (.ok data)).learningCard = some data
  ∧ (handleMeaningSelect 2 card0 (.error e)).loadingDuring = true
  ∧ (handleMeaningSelect 2 card0 (.error e)).step = 2
  ∧ (handleMeaningSelect 2 card0 (.error e)).errorToast = true
  ∧ (handleMeaningSelect 2 card0 (.error e)).learningCard = card0 :=
  ⟨rfl, rfl, rfl, rfl, rfl, rfl, rfl⟩

/-- C7: the view-to-URL mapping round-trips: pushing any view's path and
applying the popstate handler to it restores that view; in particular
`/collections` maps to the collections view and going back to `/` restores
the learn view. -/
theorem c7_view_url_round_trip :
    (∀ v : AppView, handlePopState (pushStatePath v) = v)
  ∧ pushStatePath .learn = "/"
  ∧ pushStatePath .collections = "/collections"
  ∧ pushStatePath .learning = "/learning"
  ∧ handlePopState "/collections" = .collections
  ∧ handlePopState "/" = .learn := by
  refine ⟨fun v => ?_, rfl, rfl, rfl, by decide, by decide⟩
  cases v <;> decide

/-- C8: a review-session open whose due-card fetch resolves with an empty
list immediately fires `onComplete` (with the session-complete toast) and,
once loading ends, the component renders nothing. -/
theorem c8_empty_due_completes (currentIndex : Nat) (showAnswer : Bool) :
    (loadDueCards (.ok [])).onCompleteCalls = 1
  ∧ (loadDueCards (.ok [])).cards = []
  ∧ (loadDueCards (.ok [])).loading = false
  ∧ (loadDueCards (.ok [])).toast = some ("No cards due for review!",
      .success)
  ∧ renderReviewSession false [] currentIndex showAnswer = .nothing :=
  ⟨rfl, rfl, rfl, rfl, rfl⟩

/-- C4: with a rating submission whose `recordCardReview` call succeeds, a
session that is not already recording and whose index is in range advances
to the next card with the answer hidden when the current card is not the
last one, and fires `onComplete` exactly once on the last one. -/
theorem c4_rating_advances_or_completes (st : ReviewState)
    (rating : ReviewRating) (hrev : st.reviewing = false)
    (hidx : st.currentIndex < st.cards.length) :
    (st.currentIndex < st.cards.length - 1 →
        (handleRating st rating (.ok ())).state.currentIndex
            = st.currentIndex + 1
      ∧ (handleRating st rating (.ok ())).state.showAnswer = false
      ∧ (handleRating st rating (.ok ())).onCompleteCalls = 0)
  ∧ (st.currentIndex = st.cards.length - 1 →
        (handleRating st rating (.ok ())).onCompleteCalls = 1) := by
  have hle : ¬ st.cards.length ≤ st.currentIndex := Nat.not_le.mpr hidx
  constructor
  · intro hlt
    refine ⟨?_, ?_, ?_⟩ <;> simp [handleRating, hrev, hle, hlt]
  · intro heq
    have hnlt : ¬ st.currentIndex < st.cards.length - 1 := by omega
    simp [handleRating, hrev, hle, hnlt]

/-- A two-card review state used to witness C4. -/
def sampleReviewState : ReviewState :=
  { cards := [default, default], currentIndex := 0, showAnswer := true
    reviewing := false }

/-- Witness for C4 on a two-card session at the first card: rating it with a
successful record advances the index and hides the answer. -/
theorem c4_rating_advances_or_completes_witness :
    sampleReviewState.reviewing = false
  ∧ sampleReviewState.currentIndex < sampleReviewState.cards.length
  ∧ sampleReviewState.currentIndex < sampleReviewState.cards.length - 1
  ∧ ((handleRating sampleReviewState ⟨1, by decide⟩
        (.ok ())).state.currentIndex = sampleReviewState.currentIndex + 1
    ∧ (handleRating sampleReviewState ⟨1, by decide⟩
        (.ok ())).state.showAnswer = false
    ∧ (handleRating sampleReviewState ⟨1, by decide⟩
        (.ok ())).onCompleteCalls = 0) :=
  ⟨rfl, by decide, by decide,
    (c4_rating_advances_or_completes sampleReviewState ⟨1, by decide⟩ rfl
      (by decide)).1 (by decide)⟩

/-- A 429 response always rejects with the distinguished quota message. -/
theorem request_429_eq (α : Type) (jar : CookieJar) (statusText : String)
    (errorField : Option (Option String)) (jsonBody : Option α)
    (emptyVal : α) :
    request jar (.response 429 statusText errorField jsonBody) emptyVal
      = (.error ⟨"AI_SERVICE_QUOTA_EXCEEDED"⟩, jar) := rfl

/-- Unfolding equation for `getEnhancedWordInfo` exposing the cache lookup. -/
theorem getEnhancedWordInfo_eq (cache : WordCache) (jar : CookieJar)
    (word : String) (now : Int) (fetch : FetchResult EnhancedWordResponse) :
    getEnhancedWordInfo cache jar word now fetch =
      match cacheGet cache ("enhanced_" ++ word.toLower) with
      | some c =>
          if now - c.timestamp < CACHE_DURATION then
            { result := .ok c.data, cache := cache, jar := jar
              networkCalled := false }
          else
            getEnhancedAfterFetch cache jar ("enhanced_" ++ word.toLower)
              (some c) now fetch
      | none =>
          getEnhancedAfterFetch cache jar ("enhanced_" ++ word.toLower) none
            now fetch := rfl

/-- C1: the first enhanced lookup of a word, when it reaches the network
(no fresh cache entry) and succeeds, stores the payload under the lowercased
key; a second call for the same word up to letter case strictly within 30
minutes resolves with that identical payload without a network request,
while a call 30 minutes or more after issues a new network request. -/
theorem c1_enhanced_cache_window (w1 w2 : String) (cache : WordCache)
    (jar jar2 : CookieJar) (now1 now2 : Int) (statusText : String)
    (errorField : Option (Option String)) (data : EnhancedWordResponse)
    (fetch2 : FetchResult EnhancedWordResponse)
    (hw : w1.toLower = w2.toLower)
    (hmiss : ∀ c, cacheGet cache ("enhanced_" ++ w1.toLower) = some c →
        CACHE_DURATION ≤ now1 - c.timestamp) :
    (getEnhancedWordInfo cache jar w1 now1
        (.response 200 statusText errorField (some data))).result = .ok data
  ∧ (getEnhancedWordInfo cache jar w1 now1
        (.response 200 statusText errorField (some data))).networkCalled
      = true
  ∧ (getEnhancedWordInfo cache jar w1 now1
        (.response 200 statusText errorField (some data))).cache
      = cacheSet cache ("enhanced_" ++ w1.toLower)
          { data := data, timestamp := now1 }
  ∧ (now2 - now1 < CACHE_DURATION →
        (getEnhancedWordInfo
            (cacheSet cache ("enhanced_" ++ w1.toLower)
              { data := data, timestamp := now1 })
            jar2 w2 now2 fetch2).result = .ok data
      ∧ (getEnhancedWordInfo
            (cacheSet cache ("enhanced_" ++ w1.toLower)
              { data := data, timestamp := now1 })
            jar2 w2 now2 fetch2).networkCalled = false)
  ∧ (CACHE_DURATION ≤ now2 - now1 →
        (getEnhancedWordInfo
            (cacheSet cache ("enhanced_" ++ w1.toLower)
              { data := data, timestamp := now1 })
            jar2 w2 now2 fetch2).networkCalled = true) := by
  have hfirst : getEnhancedWordInfo cache jar w1 now1
      (.response 200 statusText errorField (some data)) =
      { result := .ok data
        cache := cacheSet cache ("enhanced_" ++ w1.toLower)
          { data := data, timestamp := now1 }
        jar := jar, networkCalled := true } := by
    rw [getEnhancedWordInfo_eq]
    cases hc : cacheGet cache ("enhanced_" ++ w1.toLower) with
    | none =>
        exact getEnhancedAfterFetch_ok cache jar _ none now1 statusText
          errorField data
    | some c =>
        have hstale : ¬ (now1 - c.timestamp < CACHE_DURATION) :=
          not_lt.mpr (hmiss c hc)
        simp only [hstale, if_false]
        exact getEnhancedAfterFetch_ok cache jar _ (some c) now1 statusText
          errorField data
  have hhit : cacheGet
      (cacheSet cache ("enhanced_" ++ w1.toLower)
        { data := data, timestamp := now1 })
      ("enhanced_" ++ w2.toLower) =
      some { data := data, timestamp := now1 } := by
    rw [← hw]
    exact cacheGet_cacheSet_self cache _ _
  refine ⟨by rw [hfirst], by rw [hfirst], by rw [hfirst], ?_, ?_⟩
  · intro hfresh
    constructor <;> rw [getEnhancedWordInfo_eq, hhit] <;> simp [hfresh]
  · intro hstale2
    have hnf : ¬ (now2 - now1 < CACHE_DURATION) := not_lt.mpr hstale2
    rw [getEnhancedWordInfo_eq, hhit]
    simp only [hnf, if_false]
    exact getEnhancedAfterFetch_networkCalled _ _ _ _ _ _

/-- A concrete enhanced-lookup payload used in witnesses. -/
def sampleData : EnhancedWordResponse :=
  { word := "hello", phonetic := "həˈloʊ"
    meanings := [{ partOfSpeech := "exclamation"
                   definition := "a greeting", «example» := none }]
    analysis := none }

/-- Witness for C1: a first lookup of `Hello` on an empty cache at t = 0
stores the payload; a second lookup of `HELLO` at t = 10ms is served from the
cache without a network request. -/
theorem c1_enhanced_cache_window_witness :
    ("Hello".toLower = "HELLO".toLower)
  ∧ ((10 : Int) - 0 < CACHE_DURATION)
  ∧ (getEnhancedWordInfo [] [] "Hello" 0
        (.response 200 "OK" none (some sampleData))).result = .ok sampleData
  ∧ (getEnhancedWordInfo
        (cacheSet [] ("enhanced_" ++ "Hello".toLower)
          { data := sampleData, timestamp := 0 })
        [] "HELLO" 10 (.networkFailure ⟨"offline"⟩)).result = .ok sampleData
  ∧ (getEnhancedWordInfo
        (cacheSet [] ("enhanced_" ++ "Hello".toLower)
          { data := sampleData, timestamp := 0 })
        [] "HELLO" 10 (.networkFailure ⟨"offline"⟩)).networkCalled
      = false :=
  have h := c1_enhanced_cache_window "Hello" "HELLO" [] [] [] 0 10 "OK" none
    sampleData (.networkFailure ⟨"offline"⟩)
    (by simp only [String.toLower, String.map_eq]; decide)
    (fun c hc => by simp [cacheGet] at hc)
  ⟨by simp only [String.toLower, String.map_eq]; decide, by decide, h.1,
    (h.2.2.2.1 (by decide)).1, (h.2.2.2.1 (by decide)).2⟩

/-- C9: when the enhanced lookup reaches the network (stale entry) and the
request rejects with the quota error from a 429 response, the call resolves
with the cached payload even though the entry is older than the 30-minute
window; the quota error propagates only when no cache entry exists. -/
theorem c9_quota_stale_cache_fallback (cache : WordCache) (jar : CookieJar)
    (word : String) (now : Int) (statusText : String)
    (errorField : Option (Option String))
    (jsonBody : Option EnhancedWordResponse) :
    (∀ c, cacheGet cache ("enhanced_" ++ word.toLower) = some c →
        CACHE_DURATION ≤ now - c.timestamp →
        (getEnhancedWordInfo cache jar word now
            (.response 429 statusText errorField jsonBody)).result
          = .ok c.data
      ∧ (getEnhancedWordInfo cache jar word now
            (.response 429 statusText errorField jsonBody)).networkCalled
          = true)
  ∧ (cacheGet cache ("enhanced_" ++ word.toLower) = none →
        (getEnhancedWordInfo cache jar word now
            (.response 429 statusText errorField jsonBody)).result
          = .error ⟨"AI_SERVICE_QUOTA_EXCEEDED"⟩) := by
  constructor
  · intro c hc hstale
    have hnf : ¬ (now - c.timestamp < CACHE_DURATION) := not_lt.mpr hstale
    constructor <;> rw [getEnhancedWordInfo_eq, hc] <;>
      simp [hnf, getEnhancedAfterFetch, request_429_eq]
  · intro hc
    rw [getEnhancedWordInfo_eq, hc]
    simp [getEnhancedAfterFetch, request_429_eq]

/-- A one-entry cache whose entry for `hello` was stored at t = 0, used to
witness C9. -/
def staleCache : WordCache :=
  [("enhanced_hello", { data := sampleData, timestamp := 0 })]

/-- Witness for C9: at t = 30 minutes the entry is stale, yet a 429-rejected
lookup of `hello` resolves with the cached payload. -/
theorem c9_quota_stale_cache_fallback_witness :
    cacheGet staleCache ("enhanced_" ++ "hello".toLower)
      = some { data := sampleData, timestamp := 0 }
  ∧ CACHE_DURATION ≤ (1800000 : Int) - (0 : Int)
  ∧ (getEnhancedWordInfo staleCache [] "hello" 1800000
        (.response 429 "Too Many Requests" none none)).result
      = .ok sampleData :=
  have hc : cacheGet staleCache ("enhanced_" ++ "hello".toLower)
      = some { data := sampleData, timestamp := 0 } := by
    simp only [String.toLower, String.map_eq]; decide
  ⟨hc, by decide,
    ((c9_quota_stale_cache_fallback staleCache [] "hello" 1800000
        "Too Many Requests" none none).1
      { data := sampleData, timestamp := 0 } hc (by decide)).1⟩

/-- C3: a 429 response makes `request` reject with the distinguished
quota-exceeded signal; a search submission (non-empty word, guest guard
passed) whose enhanced lookup rejects with that signal calls the
plain-meanings fallback, and when the fallback also rejects the screen ends
in the `Word not found` error state with no word data and no propagated
exception (`handleSubmit` is total). -/
theorem c3_quota_fallback_not_found (word : String) (isAuth : Bool)
    (guestApiCount : Nat) (jar : CookieJar) (statusText : String)
    (errorField : Option (Option String))
    (jsonBody : Option EnhancedWordResponse)
    (basicResult : Except JsError BasicMeaningsResponse) (basicErr : JsError)
    (hword : jsTrim word ≠ "")
    (hguard : isAuth = true ∨ guestApiCount < GUEST_API_LIMIT) :
    (request jar (.response 429 statusText errorField jsonBody)
        EnhancedWordResponse.empty).1 = .error ⟨"AI_SERVICE_QUOTA_EXCEEDED"⟩
  ∧ (handleSubmit word isAuth guestApiCount
        (.error ⟨"AI_SERVICE_QUOTA_EXCEEDED"⟩) basicResult).fallbackCalled
      = true
  ∧ (handleSubmit word isAuth guestApiCount
        (.error ⟨"AI_SERVICE_QUOTA_EXCEEDED"⟩) (.error basicErr)).errorText
      = "Word not found. Please try another word."
  ∧ (handleSubmit word isAuth guestApiCount
        (.error ⟨"AI_SERVICE_QUOTA_EXCEEDED"⟩) (.error basicErr)).wordData
      = none := by
  have hguardF : (!isAuth && decide (GUEST_API_LIMIT ≤ guestApiCount))
      = false := by
    rcases hguard with h | h
    · simp [h]
    · simp [Nat.not_le.mpr h]
  refine ⟨rfl, ?_, ?_, ?_⟩
  · cases basicResult <;> simp [handleSubmit, hword, hguardF]
  · simp [handleSubmit, hword, hguardF]
  · simp [handleSubmit, hword, hguardF]

/-- Witness for C3: an unauthenticated search for `hello` with counter 0
whose enhanced lookup hits the quota and whose fallback 404s ends in the
not-found state. -/
theorem c3_quota_fallback_not_found_witness :
    (jsTrim "hello" ≠ "")
  ∧ ((false = true) ∨ (0 : Nat) < GUEST_API_LIMIT)
  ∧ (request ([] : CookieJar)
        (.response 429 "Too Many Requests" none none)
        EnhancedWordResponse.empty).1 = .error ⟨"AI_SERVICE_QUOTA_EXCEEDED"⟩
  ∧ (handleSubmit "hello" false 0 (.error ⟨"AI_SERVICE_QUOTA_EXCEEDED"⟩)
        (.error ⟨"HTTP 404"⟩)).fallbackCalled = true
  ∧ (handleSubmit "hello" false 0 (.error ⟨"AI_SERVICE_QUOTA_EXCEEDED"⟩)
        (.error ⟨"HTTP 404"⟩)).errorText
      = "Word not found. Please try another word." :=
  have h := c3_quota_fallback_not_found "hello" false 0 [] "Too Many Requests"
    none none (.error ⟨"HTTP 404"⟩) ⟨"HTTP 404"⟩ (by decide)
    (Or.inr (by decide))
  ⟨by decide, Or.inr (by decide), h.1, h.2.1, h.2.2.1⟩

/-- C10: an unauthenticated search submission with the stored guest counter
at the limit opens the login prompt and issues no API call, leaving the
counter unchanged; below the limit the counter is incremented exactly on the
two success paths (enhanced lookup, or quota-triggered plain-meanings
fallback) and never after a failed lookup. -/
theorem c10_guest_limit_counter (word : String) (guestApiCount : Nat)
    (enhancedResult : Except JsError EnhancedWordResponse)
    (basicResult : Except JsError BasicMeaningsResponse)
    (data : EnhancedWordResponse) (basicData : BasicMeaningsResponse)
    (otherErr basicErr : JsError)
    (hword : jsTrim word ≠ "") :
    (GUEST_API_LIMIT ≤ guestApiCount →
        (handleSubmit word false guestApiCount enhancedResult
            basicResult).loginRequired = true
      ∧ (handleSubmit word false guestApiCount enhancedResult
            basicResult).enhancedCalled = false
      ∧ (handleSubmit word false guestApiCount enhancedResult
            basicResult).fallbackCalled = false
      ∧ (handleSubmit word false guestApiCount enhancedResult
            basicResult).guestApiCount = guestApiCount)
  ∧ (guestApiCount < GUEST_API_LIMIT →
        (handleSubmit word false guestApiCount (.ok data)
            basicResult).guestApiCount = guestApiCount + 1
      ∧ (handleSubmit word false guestApiCount
            (.error ⟨"AI_SERVICE_QUOTA_EXCEEDED"⟩)
            (.ok basicData)).guestApiCount = guestApiCount + 1
      ∧ (handleSubmit word false guestApiCount
            (.error ⟨"AI_SERVICE_QUOTA_EXCEEDED"⟩)
            (.error basicErr)).guestApiCount = guestApiCount
      ∧ (otherErr.message ≠ "AI_SERVICE_QUOTA_EXCEEDED" →
          (handleSubmit word false guestApiCount (.error otherErr)
              basicResult).guestApiCount = guestApiCount)) := by
  constructor
  · intro hge
    refine ⟨?_, ?_, ?_, ?_⟩ <;> simp [handleSubmit, hword, hge]
  · intro hlt
    have hguardF : ¬ GUEST_API_LIMIT ≤ guestApiCount := Nat.not_le.mpr hlt
    refine ⟨?_, ?_, ?_, fun hmsg => ?_⟩
    · simp [handleSubmit, hword, hguardF]
    · simp [handleSubmit, hword, hguardF]
    · simp [handleSubmit, hword, hguardF]
    · simp [handleSubmit, hword, hguardF, hmsg]

/-- Witness for C10: at counter 3 a guest search opens the login prompt with
no API call; at counter 0 a successful enhanced lookup increments the
counter and a fully failed one leaves it unchanged. -/
theorem c10_guest_limit_counter_witness :
    (jsTrim "hello" ≠ "")
  ∧ GUEST_API_LIMIT ≤ 3
  ∧ (0 : Nat) < GUEST_API_LIMIT
  ∧ (handleSubmit "hello" false 3 (.ok sampleData)
        (.error ⟨"HTTP 404"⟩)).loginRequired = true
  ∧ (handleSubmit "hello" false 3 (.ok sampleData)
        (.error ⟨"HTTP 404"⟩)).enhancedCalled = false
  ∧ (handleSubmit "hello" false 0 (.ok sampleData)
        (.error ⟨"HTTP 404"⟩)).guestApiCount = 0 + 1
  ∧ (handleSubmit "hello" false 0 (.error ⟨"AI_SERVICE_QUOTA_EXCEEDED"⟩)
        (.error ⟨"HTTP 404"⟩)).guestApiCount = 0 :=
  have h3 := c10_guest_limit_counter "hello" 3 (.ok sampleData)
    (.error ⟨"HTTP 404"⟩) sampleData ⟨"hello", []⟩ ⟨"x"⟩ ⟨"HTTP 404"⟩
    (by decide)
  have h0 := c10_guest_limit_counter "hello" 0 (.ok sampleData)
    (.error ⟨"HTTP 404"⟩) sampleData ⟨"hello", []⟩ ⟨"x"⟩ ⟨"HTTP 404"⟩
    (by decide)
  ⟨by decide, by decide, by decide,
    (h3.1 (by decide)).1, (h3.1 (by decide)).2.1,
    (h0.2 (by decide)).1, (h0.2 (by decide)).2.2.1⟩

end VibeEnglish
